import Mathlib

/-!
Shallow embedding of the conference-bot reservation and voting core
(src/bot/database.py, src/bot/handlers/booking.py, src/bot/handlers/polls.py,
src/bot/handlers/admin.py).

Modelling conventions:
* SQLite tables become Lean lists of records; SQLite INTEGER becomes Int.
* Autoincrement surrogate keys (booking_id, vote_id) and timestamp columns
  (booked_at, voted_at, registered_at, created_at) are not observed by any
  property under study and are omitted from the records.
* `aiosqlite` never enables `PRAGMA foreign_keys`, so foreign-key clauses are
  not enforced: an INSERT referencing a missing parent row succeeds.  The only
  enforced constraints are the UNIQUE(user_id, activity_id) and
  UNIQUE(poll_id, user_id) clauses, modelled as a membership test whose failure
  corresponds to the caught aiosqlite.IntegrityError.
* Each async handler is modelled as a pure function from the database state
  (plus its inputs) to a result and a new database state; the render side
  (message text, keyboards) is abstracted to the outcome category the handler
  reports.
-/

/-- Row of the `users` table (src/bot/database.py, init_db).  `user_id` is the
PRIMARY KEY.  Text columns are nullable in SQLite, hence `Option String`. -/
structure UserRow where
  user_id : Int
  username : Option String
  first_name : Option String
  last_name : Option String
  is_admin : Bool
deriving DecidableEq

/-- Row of the `activities` table.  `activity_id` is the PRIMARY KEY. -/
structure ActivityRow where
  activity_id : Int
  name : String
  description : String
  date_time : String
  max_capacity : Int
  is_active : Bool
deriving DecidableEq

/-- Row of the `bookings` table, keeping the UNIQUE(user_id, activity_id)
pair; the surrogate booking_id and booked_at timestamp are omitted. -/
structure BookingRow where
  user_id : Int
  activity_id : Int
deriving DecidableEq

/-- Row of the `polls` table; `options` is stored as a JSON array of strings
in SQLite and always read back with json.loads, so it is modelled directly as
`List String`. -/
structure PollRow where
  poll_id : Int
  question : String
  options : List String
  is_active : Bool
deriving DecidableEq

/-- Row of the `poll_votes` table, keeping the UNIQUE(poll_id, user_id) pair
and the chosen option index. -/
structure VoteRow where
  poll_id : Int
  user_id : Int
  option_index : Int
deriving DecidableEq

/-- The whole SQLite database of src/bot/database.py. -/
structure DB where
  users : List UserRow
  activities : List ActivityRow
  bookings : List BookingRow
  polls : List PollRow
  votes : List VoteRow
deriving DecidableEq

/-- `Database.get_activity`: SELECT * FROM activities WHERE activity_id = ?.
`activity_id` is the primary key, so the first match is the only match. -/
def get_activity (db : DB) (activity_id : Int) : Option ActivityRow :=
  db.activities.find? (fun a => a.activity_id = activity_id)

/-- `Database.get_booking_count`: SELECT COUNT(*) FROM bookings WHERE
activity_id = ?. -/
def get_booking_count (db : DB) (activity_id : Int) : Nat :=
  (db.bookings.filter (fun b => b.activity_id = activity_id)).length

/-- `Database.is_user_booked`: SELECT 1 FROM bookings WHERE user_id = ? AND
activity_id = ?, non-emptiness of the result. -/
def is_user_booked (db : DB) (user_id activity_id : Int) : Bool :=
  db.bookings.any (fun b => b.user_id = user_id && b.activity_id = activity_id)

/-- `Database.create_booking`: count current bookings for the activity, look
up the activity's max_capacity (False if the activity row is missing), refuse
when `current_count >= max_capacity`, otherwise INSERT the booking row; the
UNIQUE(user_id, activity_id) constraint turns a duplicate insert into an
aiosqlite.IntegrityError which the method catches and converts to False. -/
def create_booking (db : DB) (user_id activity_id : Int) : Bool × DB :=
  let current_count := get_booking_count db activity_id
  match get_activity db activity_id with
  | none => (false, db)
  | some a =>
    if (current_count : Int) ≥ a.max_capacity then (false, db)
    else if is_user_booked db user_id activity_id then (false, db)
    else (true, { db with bookings := db.bookings ++ [⟨user_id, activity_id⟩] })

/-- `Database.cancel_booking`: DELETE FROM bookings WHERE user_id = ? AND
activity_id = ?, returning `rowcount > 0`. -/
def cancel_booking (db : DB) (user_id activity_id : Int) : Bool × DB :=
  let remaining := db.bookings.filter
    (fun b => ! (b.user_id = user_id && b.activity_id = activity_id))
  (is_user_booked db user_id activity_id, { db with bookings := remaining })

/-- `Database.get_activity_bookings`: SELECT b.*, u.username, u.first_name,
u.last_name FROM bookings b JOIN users u ON b.user_id = u.user_id WHERE
b.activity_id = ?.  The inner join is modelled literally: each booking row for
the activity is paired with every users row sharing its user_id (the users
primary key makes that at most one row in any reachable state). -/
def get_activity_bookings (db : DB) (activity_id : Int) :
    List (BookingRow × UserRow) :=
  (db.bookings.filter (fun b => b.activity_id = activity_id)).flatMap
    (fun b => (db.users.filter (fun u => u.user_id = b.user_id)).map
      (fun u => (b, u)))

/-- One CSV data line of `export_bookings` (src/bot/handlers/admin.py):
first name, last name, username (empty string when NULL), user id — produced
from exactly the rows of `get_activity_bookings`.  The running ordinal and the
timestamp column are presentation detail. -/
def export_bookings_rows (db : DB) (activity_id : Int) :
    List (String × String × String × Int) :=
  (get_activity_bookings db activity_id).map
    (fun p => (p.2.first_name.getD "", p.2.last_name.getD "",
               p.2.username.getD "", p.1.user_id))

/-- `Database.add_activity`: INSERT INTO activities, returning the fresh
rowid.  AUTOINCREMENT is modelled as one more than the largest existing id
(fresh and increasing, which is all any caller observes). -/
def add_activity (db : DB) (name description date_time : String)
    (max_capacity : Int) : Int × DB :=
  let new_id := (db.activities.map (fun a => a.activity_id)).foldr max 0 + 1
  (new_id,
   { db with activities :=
      db.activities ++ [⟨new_id, name, description, date_time, max_capacity, true⟩] })

/-- `Database.get_poll`: SELECT * FROM polls WHERE poll_id = ? (primary key,
so first match is the only match), options decoded from JSON. -/
def get_poll (db : DB) (poll_id : Int) : Option PollRow :=
  db.polls.find? (fun p => p.poll_id = poll_id)

/-- `Database.vote_poll`: INSERT INTO poll_votes (poll_id, user_id,
option_index); only the UNIQUE(poll_id, user_id) constraint can make the
insert fail (foreign keys are not enforced and the option index is not
checked), and that IntegrityError is caught and returned as False. -/
def vote_poll (db : DB) (poll_id user_id option_index : Int) : Bool × DB :=
  if db.votes.any (fun v => v.poll_id = poll_id && v.user_id = user_id) then
    (false, db)
  else
    (true, { db with votes := db.votes ++ [⟨poll_id, user_id, option_index⟩] })

/-- `Database.get_poll_results`: SELECT option_index, COUNT(*) FROM poll_votes
WHERE poll_id = ? GROUP BY option_index — one (index, count) pair per distinct
option_index that has at least one vote.  Row order is not part of the
contract; the model lists groups in order of first appearance. -/
def get_poll_results (db : DB) (poll_id : Int) : List (Int × Nat) :=
  let idxs := (db.votes.filter (fun v => v.poll_id = poll_id)).map
    (fun v => v.option_index)
  idxs.dedup.map (fun i => (i, idxs.count i))

/-! ## Handler layer: booking (src/bot/handlers/booking.py) -/

/-- The user-visible outcome categories of `book_activity`: the success alert,
the "already registered" alert, and the "all slots taken" alert.  These are
the only three alerts the handler can show. -/
inductive BookOutcome where
  | booked
  | alreadyBooked
  | slotsFull
deriving DecidableEq

/-- `book_activity`: call `Database.create_booking`; on True answer success;
on False ask `Database.is_user_booked` and answer "already registered" when it
holds, otherwise "all slots taken". -/
def book_activity (db : DB) (user_id activity_id : Int) : BookOutcome × DB :=
  let r := create_booking db user_id activity_id
  if r.1 then (BookOutcome.booked, r.2)
  else if is_user_booked r.2 user_id activity_id then
    (BookOutcome.alreadyBooked, r.2)
  else (BookOutcome.slotsFull, r.2)

/-! ## Handler layer: polls (src/bot/handlers/polls.py) -/

/-- Python list subscription `xs[i]` with an `int` index: non-negative indices
from the front, negative indices from the back, IndexError (here `none`)
outside `[-len, len)`. -/
def pyListGet (xs : List String) (i : Int) : Option String :=
  if h : 0 ≤ i ∧ i < (xs.length : Int) then some (xs.get ⟨i.toNat, by omega⟩)
  else if h2 : -(xs.length : Int) ≤ i ∧ i < 0 then
    some (xs.get ⟨((xs.length : Int) + i).toNat, by omega⟩)
  else none

/-- What `vote_in_poll` answers the actor: the named-option success alert, the
generic success alert (poll missing or closed), the "already voted" alert, or
an uncaught IndexError from `poll.options[option_index]` after the vote was
already committed. -/
inductive VoteOutcome where
  | voted (label : String)
  | votedGeneric
  | alreadyVoted
  | indexError
deriving DecidableEq

/-- `vote_in_poll`: call `Database.vote_poll` directly (no option-index
validation, no poll lookup first); on success fetch the poll to render the
chosen label — subscripting `poll.options[option_index]` raises IndexError for
an out-of-range index, after the vote row is already committed; on False
answer "already voted". -/
def vote_in_poll (db : DB) (poll_id user_id option_index : Int) :
    VoteOutcome × DB :=
  let r := vote_poll db poll_id user_id option_index
  if r.1 then
    match get_poll r.2 poll_id with
    | some poll =>
      if poll.is_active then
        match pyListGet poll.options option_index with
        | some label => (VoteOutcome.voted label, r.2)
        | none => (VoteOutcome.indexError, r.2)
      else (VoteOutcome.votedGeneric, r.2)
    | none => (VoteOutcome.votedGeneric, r.2)
  else (VoteOutcome.alreadyVoted, r.2)

/-- `results.get(i, 0)` over the dict returned by get_poll_results. -/
def lookupCount (results : List (Int × Nat)) (i : Int) : Nat :=
  match results.find? (fun p => p.1 = i) with
  | some p => p.2
  | none => 0

/-- `show_poll_results`: `none` when the poll is missing ("poll not found"
alert); `some []` when total_votes = 0 (the handler prints only the "nobody
has voted yet" line, no per-option rows); otherwise one (label, votes) row per
option of the poll in original order, votes looked up via
`results.get(i, 0)`.  The percentage it renders is votes / total * 100,
computed only inside the total > 0 branch. -/
def show_poll_results_rows (db : DB) (poll_id : Int) :
    Option (List (String × Nat)) :=
  match get_poll db poll_id with
  | none => none
  | some poll =>
    let results := get_poll_results db poll_id
    let total : Nat := (results.map (fun p => p.2)).sum
    if total = 0 then some []
    else some ((List.range poll.options.length).map
      (fun i => (poll.options.getD i "", lookupCount results (i : Int))))

/-! ## Handler layer: admin activity-creation chain (src/bot/handlers/admin.py) -/

/-- MAX_BOOKING_CAPACITY from src/bot/config.py. -/
def MAX_BOOKING_CAPACITY : Int := 50

/-- Python `str.strip()` with no argument: remove leading and trailing
whitespace characters. -/
def pyStrip (cs : List Char) : List Char :=
  ((cs.dropWhile Char.isWhitespace).reverse.dropWhile Char.isWhitespace).reverse

/-- Value of a non-empty ASCII decimal digit string. -/
def digitsToNat (cs : List Char) : Nat :=
  cs.foldl (fun n c => n * 10 + (c.toNat - 48)) 0

/-- Python `int(s)` restricted to what this code can meet: optional
surrounding whitespace, an optional sign, then a non-empty ASCII digit
string.  (CPython additionally accepts digit-group underscores and non-ASCII
decimal digits; no property below depends on those inputs.) -/
def pyInt? (s : String) : Option Int :=
  let t := pyStrip s.data
  let signAndDigits : Int × List Char :=
    match t with
    | '-' :: rest => (-1, rest)
    | '+' :: rest => (1, rest)
    | _ => (1, t)
  if signAndDigits.2 ≠ [] ∧
      signAndDigits.2.all (fun c => '0' ≤ c && c ≤ '9') then
    some (signAndDigits.1 * (digitsToNat signAndDigits.2 : Int))
  else none

/-- The capacity-step validation of `process_activity_capacity`: the literal
"-" (after strip) selects MAX_BOOKING_CAPACITY; otherwise the text must parse
as an integer (ValueError re-prompts) and be positive (a value ≤ 0
re-prompts).  `none` is the re-prompt outcome. -/
def parseCapacity (text : String) : Option Int :=
  if pyStrip text.data = ['-'] then some MAX_BOOKING_CAPACITY
  else
    match pyInt? text with
    | none => none
    | some c => if c ≤ 0 then none else some c

/-- The aiogram FSM states of the activity-creation chain (class AdminStates;
the broadcast state is a separate one-step chain not modelled here). -/
inductive AdminState where
  | waitingName
  | waitingDescription
  | waitingDatetime
  | waitingCapacity
deriving DecidableEq

/-- The `state.get_data()` dictionary accumulated by the chain: each key is
absent until its step stores it. -/
structure FSMData where
  activity_name : Option String
  activity_description : Option String
  activity_datetime : Option String
deriving DecidableEq

/-- A live FSM session: current state plus accumulated data. -/
structure Session where
  state : AdminState
  data : FSMData
deriving DecidableEq

/-- Result of feeding one admin message into the chain: the session survives
(same or advanced state) with a possibly updated database, or the commit
cleared the session, or the commit step hit a missing dictionary key
(Python KeyError — unreachable through the chain itself). -/
inductive SubmitResult where
  | next (sess : Session) (db : DB)
  | committed (db : DB)
  | keyError
deriving DecidableEq

/-- One message dispatched into the activity-creation chain, mirroring
process_activity_name / _description / _datetime / _capacity: a non-admin
message returns untouched; the three collection steps store their field and
advance; the capacity step re-prompts (state and data unchanged, no database
write) on invalid input and otherwise calls Database.add_activity with all
accumulated fields and clears the state. -/
def admin_submit (isAdm : Bool) (sess : Session) (text : String) (db : DB) :
    SubmitResult :=
  if !isAdm then SubmitResult.next sess db
  else
    match sess.state with
    | AdminState.waitingName =>
      SubmitResult.next
        ⟨AdminState.waitingDescription, { sess.data with activity_name := some text }⟩ db
    | AdminState.waitingDescription =>
      SubmitResult.next
        ⟨AdminState.waitingDatetime, { sess.data with activity_description := some text }⟩ db
    | AdminState.waitingDatetime =>
      SubmitResult.next
        ⟨AdminState.waitingCapacity, { sess.data with activity_datetime := some text }⟩ db
    | AdminState.waitingCapacity =>
      match parseCapacity text with
      | none => SubmitResult.next sess db
      | some capacity =>
        match sess.data.activity_name, sess.data.activity_description,
              sess.data.activity_datetime with
        | some n, some d, some dt =>
          SubmitResult.committed (add_activity db n d dt capacity).2
        | _, _, _ => SubmitResult.keyError

/-! ## Operation sequences over the store -/

/-- One store-mutating call of the reservation engine. -/
inductive Op where
  | book (user_id activity_id : Int)
  | cancel (user_id activity_id : Int)
deriving DecidableEq

/-- Apply one reservation call, keeping only the resulting state. -/
def applyOp (db : DB) : Op → DB
  | Op.book u a => (create_booking db u a).2
  | Op.cancel u a => (cancel_booking db u a).2

/-- Apply a finite sequence of book/cancel calls in order. -/
def applyOps (db : DB) (ops : List Op) : DB := ops.foldl applyOp db

/-- The Booking-table uniqueness invariant: no (user, activity) pair occurs
in two rows. -/
def bookingsPairUnique (bs : List BookingRow) : Prop :=
  List.Pairwise (fun b1 b2 => ¬ (b1.user_id = b2.user_id ∧
    b1.activity_id = b2.activity_id)) bs

/-! ## Concrete database states used to instantiate the properties -/

/-- Activity 1 with capacity 2 and no bookings yet. -/
def dbCap2 : DB := ⟨[], [⟨1, "Workshop", "Intro", "15 Nov 14:00", 2, true⟩], [], [], []⟩

/-- Activity 1 with capacity 1, already filled by actor 2. -/
def dbFull1 : DB := ⟨[], [⟨1, "Workshop", "Intro", "15 Nov 14:00", 1, true⟩], [⟨2, 1⟩], [], []⟩

/-- Poll 1 with options ["A", "B"] and no votes. -/
def dbPollAB : DB := ⟨[], [], [], [⟨1, "Q", ["A", "B"], true⟩], []⟩

/-- Poll 1 with options ["A", "B"] where actor 1 has voted index 1. -/
def dbPollABVoted : DB := ⟨[], [], [], [⟨1, "Q", ["A", "B"], true⟩], [⟨1, 1, 1⟩]⟩

/-- Activity 1 (capacity 5), one booking by actor 7 who has a users row, and
one booking by actor 8 who has none. -/
def dbJoin : DB :=
  ⟨[⟨7, some "alice", some "Alice", none, false⟩],
   [⟨1, "Workshop", "Intro", "15 Nov 14:00", 5, true⟩],
   [⟨7, 1⟩, ⟨8, 1⟩], [], []⟩

/-- A session at the capacity step with the three collected fields present. -/
def sessCap : Session :=
  ⟨AdminState.waitingCapacity,
   ⟨some "Team Lab", some "Hands-on session", some "15 Nov 14:00"⟩⟩

/-! ## Helper lemmas -/

/-- A booking call never modifies any table but `bookings`. -/
theorem create_booking_frame (db : DB) (u a : Int) :
    (create_booking db u a).2.users = db.users
    ∧ (create_booking db u a).2.activities = db.activities
    ∧ (create_booking db u a).2.polls = db.polls
    ∧ (create_booking db u a).2.votes = db.votes := by
  unfold create_booking
  cases h : get_activity db a
  · simp
  · dsimp
    split
    · simp
    · split <;> simp

/-- A cancellation never modifies any table but `bookings`. -/
theorem cancel_booking_frame (db : DB) (u a : Int) :
    (cancel_booking db u a).2.users = db.users
    ∧ (cancel_booking db u a).2.activities = db.activities
    ∧ (cancel_booking db u a).2.polls = db.polls
    ∧ (cancel_booking db u a).2.votes = db.votes := by
  unfold cancel_booking
  simp

/-- Book/cancel sequences leave the activities table unchanged. -/
theorem applyOps_activities (ops : List Op) (db : DB) :
    (applyOps db ops).activities = db.activities := by
  induction ops generalizing db with
  | nil => rfl
  | cons op rest ih =>
    cases op with
    | book u a =>
      simpa [applyOps, applyOp, (create_booking_frame db u a).2.1]
        using ih (applyOp db (Op.book u a))
    | cancel u a =>
      simpa [applyOps, applyOp, (cancel_booking_frame db u a).2.1]
        using ih (applyOp db (Op.cancel u a))

/-- Unfolding `is_user_booked db u a = false` to row level. -/
theorem is_user_booked_false_iff (db : DB) (u a : Int) :
    is_user_booked db u a = false ↔
      ∀ b ∈ db.bookings, ¬ (b.user_id = u ∧ b.activity_id = a) := by
  simp [is_user_booked, List.any_eq_true]

/-- Cancelling a booking that does not exist returns False and leaves the
database exactly as it was. -/
theorem cancel_booking_not_booked (db : DB) (u a : Int)
    (h : is_user_booked db u a = false) :
    cancel_booking db u a = (false, db) := by
  have hall := (is_user_booked_false_iff db u a).mp h
  obtain ⟨us, acts, bs, ps, vs⟩ := db
  unfold cancel_booking
  dsimp
  rw [h]
  congr 1
  congr 1
  apply List.filter_eq_self.mpr
  intro b hb
  have := hall b hb
  simp
  tauto

/-- After a cancellation the (u, a) pair is gone. -/
theorem is_user_booked_after_cancel (db : DB) (u a : Int) :
    is_user_booked (cancel_booking db u a).2 u a = false := by
  unfold cancel_booking is_user_booked
  simp [List.any_eq_true]
  intro b hb hmem
  tauto

/-- Claim C4: cancel_booking is idempotent — cancelling a non-existent
booking returns False and leaves the store completely unchanged, and after a
successful booking two cancels in a row return True then False, the second
leaving the state exactly as it was before that call. -/
theorem C4_cancel_idempotent (db : DB) (u a : Int) :
    (is_user_booked db u a = false → cancel_booking db u a = (false, db))
    ∧ (is_user_booked db u a = true →
        (cancel_booking db u a).1 = true
        ∧ (cancel_booking (cancel_booking db u a).2 u a).1 = false
        ∧ cancel_booking (cancel_booking db u a).2 u a
            = (false, (cancel_booking db u a).2)) := by
  constructor
  · exact cancel_booking_not_booked db u a
  · intro h
    refine ⟨?_, ?_, ?_⟩
    · show is_user_booked db u a = true
      exact h
    · exact congrArg Prod.fst
        (cancel_booking_not_booked _ u a (is_user_booked_after_cancel db u a))
    · exact cancel_booking_not_booked _ u a (is_user_booked_after_cancel db u a)

/-- Witness for C4 at concrete states: cancelling in the empty store reports
False and changes nothing, and after actor 2 booked activity 1 the two
cancels report True then False. -/
theorem C4_witness :
    cancel_booking dbCap2 1 1 = (false, dbCap2)
    ∧ (cancel_booking dbFull1 2 1).1 = true
    ∧ (cancel_booking (cancel_booking dbFull1 2 1).2 2 1).1 = false :=
  ⟨(C4_cancel_idempotent dbCap2 1 1).1 (by decide),
   ((C4_cancel_idempotent dbFull1 2 1).2 (by decide)).1,
   ((C4_cancel_idempotent dbFull1 2 1).2 (by decide)).2.1⟩

/-- Successful path of create_booking: existing activity, spare capacity, no
prior booking — the row is appended and True returned. -/
theorem create_booking_success (db : DB) (u a : Int) (act : ActivityRow)
    (hact : get_activity db a = some act)
    (hcap : (get_booking_count db a : Int) < act.max_capacity)
    (hnb : is_user_booked db u a = false) :
    create_booking db u a =
      (true, { db with bookings := db.bookings ++ [⟨u, a⟩] }) := by
  unfold create_booking
  rw [hact]
  dsimp
  rw [if_neg (by omega), if_neg (by simp [hnb])]

/-- Booking then cancelling with no prior booking restores the database
exactly. -/
theorem cancel_after_create (db : DB) (u a : Int) (act : ActivityRow)
    (hact : get_activity db a = some act)
    (hcap : (get_booking_count db a : Int) < act.max_capacity)
    (hnb : is_user_booked db u a = false) :
    cancel_booking (create_booking db u a).2 u a = (true, db) := by
  rw [create_booking_success db u a act hact hcap hnb]
  have hall := (is_user_booked_false_iff db u a).mp hnb
  obtain ⟨us, acts, bs, ps, vs⟩ := db
  unfold cancel_booking is_user_booked
  dsimp
  simp only [Prod.mk.injEq]
  constructor
  · simp
  · rw [List.filter_append]
    have h1 : bs.filter (fun b => ! (b.user_id = u && b.activity_id = a)) = bs := by
      apply List.filter_eq_self.mpr
      intro b hb
      have := hall b hb
      simp
      tauto
    simp [h1]
    intro b hb
    have := hall b hb
    tauto

/-- Appending one booking row raises the count of its activity by one and
leaves other activities' counts unchanged. -/
theorem get_booking_count_append (db : DB) (u a x : Int) :
    get_booking_count { db with bookings := db.bookings ++ [⟨u, a⟩] } x
      = get_booking_count db x + (if a = x then 1 else 0) := by
  simp [get_booking_count, List.filter_append]
  split
  · simp [List.filter_cons, *]
  · simp [List.filter_cons, *]

/-- Counterexample to claim C5 as stated: on an empty capacity-2 activity the
full book → cancel → book cycle succeeds at every step, yet the final booking
count is 1 while the pre-cycle count was 0 — the count after the full cycle
does not equal the count before the cycle began. -/
theorem C5_counterexample :
    (create_booking dbCap2 1 1).1 = true
    ∧ (cancel_booking (create_booking dbCap2 1 1).2 1 1).1 = true
    ∧ (create_booking
        (cancel_booking (create_booking dbCap2 1 1).2 1 1).2 1 1).1 = true
    ∧ get_booking_count dbCap2 1 = 0
    ∧ get_booking_count
        (create_booking
          (cancel_booking (create_booking dbCap2 1 1).2 1 1).2 1 1).2 1 = 1 := by
  decide

/-- Claim C5 amended: for an actor with no booking on an existing activity
with spare capacity, book succeeds, the following cancel succeeds and returns
the store (hence the activity's count) to its pre-cycle value, and the second
book then succeeds again, leaving the count at the pre-cycle value plus
one. -/
theorem C5_book_cancel_book (db : DB) (u a : Int) (act : ActivityRow)
    (hact : get_activity db a = some act)
    (hnb : is_user_booked db u a = false)
    (hcap : (get_booking_count db a : Int) < act.max_capacity) :
    (create_booking db u a).1 = true
    ∧ cancel_booking (create_booking db u a).2 u a = (true, db)
    ∧ (create_booking
        (cancel_booking (create_booking db u a).2 u a).2 u a).1 = true
    ∧ get_booking_count (cancel_booking (create_booking db u a).2 u a).2 a
        = get_booking_count db a
    ∧ get_booking_count
        (create_booking
          (cancel_booking (create_booking db u a).2 u a).2 u a).2 a
        = get_booking_count db a + 1 := by
  have hsucc := create_booking_success db u a act hact hcap hnb
  have hcycle := cancel_after_create db u a act hact hcap hnb
  refine ⟨by rw [hsucc], hcycle, ?_, by rw [hcycle], ?_⟩
  · rw [hcycle]
    dsimp
    rw [hsucc]
  · rw [hcycle]
    dsimp
    rw [hsucc]
    dsimp
    rw [get_booking_count_append]
    simp

/-- Witness for C5's amended theorem on the concrete capacity-2 activity. -/
theorem C5_witness :
    cancel_booking (create_booking dbCap2 3 1).2 3 1 = (true, dbCap2) :=
  (C5_book_cancel_book dbCap2 3 1 ⟨1, "Workshop", "Intro", "15 Nov 14:00", 2, true⟩
    (by decide) (by decide) (by decide)).2.1

/-- Insert path of vote_poll when no (poll, actor) vote exists: the row is
stored and True returned, with no check on the poll or the index. -/
theorem vote_poll_not_voted (db : DB) (pid uid idx : Int)
    (h : db.votes.any (fun v => v.poll_id = pid && v.user_id = uid) = false) :
    vote_poll db pid uid idx
      = (true, { db with votes := db.votes ++ [⟨pid, uid, idx⟩] }) := by
  unfold vote_poll
  rw [if_neg (by simp [h])]

/-- Duplicate path of vote_poll: the uniqueness constraint fires, nothing is
written and False returned. -/
theorem vote_poll_duplicate (db : DB) (pid uid idx : Int)
    (h : db.votes.any (fun v => v.poll_id = pid && v.user_id = uid) = true) :
    vote_poll db pid uid idx = (false, db) := by
  unfold vote_poll
  rw [if_pos (by simp_all)]

/-- Counterexample to claim C6 as stated: on poll 1 with two options, a vote
with out-of-range index 5 is recorded as a Vote row and reported as a success
(the handler then raises IndexError rendering the label, after the commit);
and a vote on the non-existent poll 99 is likewise recorded and reported with
the generic success alert.  castVote neither returns InvalidOption nor
PollNotFound, and both calls create a Vote row. -/
theorem C6_counterexample :
    vote_poll dbPollAB 1 7 5 = (true, { dbPollAB with votes := [⟨1, 7, 5⟩] })
    ∧ (vote_in_poll dbPollAB 1 7 5).1 = VoteOutcome.indexError
    ∧ (vote_in_poll dbPollAB 1 7 5).2.votes = [⟨1, 7, 5⟩]
    ∧ vote_poll dbPollAB 99 7 0 = (true, { dbPollAB with votes := [⟨99, 7, 0⟩] })
    ∧ (vote_in_poll dbPollAB 99 7 0).1 = VoteOutcome.votedGeneric
    ∧ (vote_in_poll dbPollAB 99 7 0).2.votes = [⟨99, 7, 0⟩] := by
  decide

/-- Claim C6 amended: vote_in_poll performs no option-index validation and no
poll-existence check before Store.vote — whenever the (pollId, actor) pair
has no vote yet, the Vote row is inserted and a success outcome reported
whatever the index and whether or not the poll exists; the only failure
outcome is the uniqueness conflict AlreadyVoted, which writes nothing. -/
theorem C6_vote_unvalidated (db : DB) (pid uid idx : Int) :
    (db.votes.any (fun v => v.poll_id = pid && v.user_id = uid) = false →
      vote_poll db pid uid idx
        = (true, { db with votes := db.votes ++ [⟨pid, uid, idx⟩] })
      ∧ (vote_in_poll db pid uid idx).2.votes = db.votes ++ [⟨pid, uid, idx⟩]
      ∧ (vote_in_poll db pid uid idx).1 ≠ VoteOutcome.alreadyVoted)
    ∧ (db.votes.any (fun v => v.poll_id = pid && v.user_id = uid) = true →
      vote_poll db pid uid idx = (false, db)
      ∧ vote_in_poll db pid uid idx = (VoteOutcome.alreadyVoted, db)) := by
  constructor
  · intro h
    have hvote := vote_poll_not_voted db pid uid idx h
    refine ⟨hvote, ?_, ?_⟩
    · unfold vote_in_poll
      rw [hvote]
      dsimp
      cases hp : get_poll { db with votes := db.votes ++ [⟨pid, uid, idx⟩] } pid
      · simp
      · dsimp
        split
        · cases hg : pyListGet _ idx <;> simp
        · simp
    · unfold vote_in_poll
      rw [hvote]
      dsimp
      cases hp : get_poll { db with votes := db.votes ++ [⟨pid, uid, idx⟩] } pid
      · simp
      · dsimp
        split
        · cases hg : pyListGet _ idx <;> simp
        · simp
  · intro h
    have hvote := vote_poll_duplicate db pid uid idx h
    refine ⟨hvote, ?_⟩
    unfold vote_in_poll
    rw [hvote]
    simp

/-- Witness for C6's amended theorem: the out-of-range vote on the concrete
two-option poll is recorded. -/
theorem C6_witness :
    vote_poll dbPollAB 1 7 5
      = (true, { dbPollAB with votes := dbPollAB.votes ++ [⟨1, 7, 5⟩] }) :=
  ((C6_vote_unvalidated dbPollAB 1 7 5).1 (by decide)).1

/-- Inversion of a successful vote: the (poll, actor) pair was absent and the
result state has exactly the appended row. -/
theorem vote_poll_success_inv (db : DB) (pid uid idx : Int)
    (h : (vote_poll db pid uid idx).1 = true) :
    db.votes.any (fun v => v.poll_id = pid && v.user_id = uid) = false
    ∧ (vote_poll db pid uid idx).2
        = { db with votes := db.votes ++ [⟨pid, uid, idx⟩] } := by
  by_cases hc : db.votes.any (fun v => v.poll_id = pid && v.user_id = uid) = true
  · rw [vote_poll_duplicate db pid uid idx hc] at h
    cases h
  · have hcf : db.votes.any (fun v => v.poll_id = pid && v.user_id = uid) = false := by
      simpa using hc
    exact ⟨hcf, by rw [vote_poll_not_voted db pid uid idx hcf]⟩

/-- Claim C7: after any successful vote by an actor in a poll, a second vote
attempt by the same actor in the same poll (any option index) answers
AlreadyVoted and leaves the store — hence the vote set and the tally —
unchanged; and the sum of the per-option counts returned by get_poll_results
always equals the total number of Vote rows recorded for that poll. -/
theorem C7_single_vote_and_tally (db : DB) (pid uid idx idx2 : Int) :
    ((vote_poll db pid uid idx).1 = true →
      vote_in_poll (vote_poll db pid uid idx).2 pid uid idx2
        = (VoteOutcome.alreadyVoted, (vote_poll db pid uid idx).2))
    ∧ ((get_poll_results db pid).map (fun p => p.2)).sum
        = (db.votes.filter (fun v => v.poll_id = pid)).length := by
  constructor
  · intro h
    obtain ⟨hab, hdb⟩ := vote_poll_success_inv db pid uid idx h
    have hdup : (vote_poll db pid uid idx).2.votes.any
        (fun v => v.poll_id = pid && v.user_id = uid) = true := by
      rw [hdb]
      simp
    have hv := vote_poll_duplicate (vote_poll db pid uid idx).2 pid uid idx2 hdup
    unfold vote_in_poll
    rw [hv]
    simp
  · unfold get_poll_results
    dsimp
    rw [List.map_map]
    have := List.sum_map_count_dedup_eq_length
      ((db.votes.filter (fun v => v.poll_id = pid)).map (fun v => v.option_index))
    simpa [Function.comp] using this

/-- Witness for C7: actor 1 votes in poll 1, then tries again with a
different index and is answered AlreadyVoted with the store unchanged. -/
theorem C7_witness :
    vote_in_poll (vote_poll dbPollAB 1 1 1).2 1 1 0
      = (VoteOutcome.alreadyVoted, (vote_poll dbPollAB 1 1 1).2) :=
  (C7_single_vote_and_tally dbPollAB 1 1 1 0).1 (by decide)

/-- find? over a keyed map hits the key exactly when it is in the key
list. -/
theorem find?_keyed_map (d : List Int) (c : Int → Nat) (j : Int) :
    (d.map (fun i => (i, c i))).find? (fun p => p.1 = j)
      = if j ∈ d then some (j, c j) else none := by
  induction d with
  | nil => simp
  | cons i d ih =>
    by_cases hij : i = j
    · subst hij
      simp [List.find?_cons]
    · have hji : ¬ j = i := fun h => hij h.symm
      simp [List.find?_cons, hij, hji, ih]

/-- The dict built by get_poll_results, read through `dict.get(j, 0)`, gives
the multiplicity of `j` among the grouped values — 0 when absent. -/
theorem lookupCount_groupBy (l : List Int) (j : Int) :
    lookupCount (l.dedup.map (fun i => (i, l.count i))) j = l.count j := by
  unfold lookupCount
  rw [find?_keyed_map]
  by_cases hj : j ∈ l.dedup
  · simp [hj]
  · have hnl : j ∉ l := fun h => hj (List.mem_dedup.mpr h)
    simp [hj]
    exact (List.count_eq_zero.mpr hnl).symm

/-- Multiplicity of a value in a mapped list as a filter length. -/
theorem count_map_eq_length_filter (l : List VoteRow) (f : VoteRow → Int)
    (j : Int) :
    (l.map f).count j = (l.filter (fun v => f v = j)).length := by
  induction l with
  | nil => simp
  | cons v l ih =>
    by_cases h : f v = j
    · simp [List.count_cons, List.filter_cons, h, ih]
    · simp [List.count_cons, List.filter_cons, h, ih]

/-- Counterexample to claim C8 as stated: with options ["A", "B"] and one
vote for index 1, get_poll_results returns {1: 1} with no entry at all for
key 0 — not the claimed {0: 0, 1: 1}; and with zero total votes the results
renderer emits no per-option rows at all (a "nobody voted" message), rather
than a 0% line for every option. -/
theorem C8_counterexample :
    get_poll_results dbPollABVoted 1 = [(1, 1)]
    ∧ (get_poll_results dbPollABVoted 1).find? (fun p => p.1 = 0) = none
    ∧ show_poll_results_rows dbPollAB 1 = some [] := by
  decide

/-- Claim C8 amended: get_poll_results returns counts only for options having
at least one vote; the renderer show_poll_results covers every option of the
poll in original order, filling absent counts with 0 via `results.get(i, 0)`,
so each displayed count equals the true number of Vote rows for that option —
but only when the vote total is positive; with a zero total it renders a
no-votes message and no per-option rows, and the percentage division is
evaluated only in the positive-total branch, so no division by zero
occurs. -/
theorem C8_results_render (db : DB) (pid : Int) (poll : PollRow)
    (hp : get_poll db pid = some poll) :
    (((get_poll_results db pid).map (fun p => p.2)).sum = 0 →
      show_poll_results_rows db pid = some [])
    ∧ (((get_poll_results db pid).map (fun p => p.2)).sum ≠ 0 →
      show_poll_results_rows db pid
        = some ((List.range poll.options.length).map
            (fun i => (poll.options.getD i "",
              (db.votes.filter (fun v => v.poll_id = pid
                && v.option_index = (i : Int))).length)))) := by
  constructor
  · intro h0
    unfold show_poll_results_rows
    rw [hp]
    dsimp
    rw [if_pos h0]
  · intro hpos
    unfold show_poll_results_rows
    rw [hp]
    dsimp
    rw [if_neg hpos]
    congr 1
    apply List.map_congr_left
    intro i hi
    congr 1
    unfold get_poll_results
    dsimp
    rw [lookupCount_groupBy, count_map_eq_length_filter]
    rw [List.filter_filter]
    congr 1
    apply List.filter_congr
    intro v hv
    exact Bool.and_comm _ _

/-- Witness for C8's amended theorem: the concrete poll with one vote for
"B" renders both options in order with their true counts, including the
explicit zero for "A". -/
theorem C8_witness :
    show_poll_results_rows dbPollABVoted 1 = some [("A", 0), ("B", 1)] := by
  rw [(C8_results_render dbPollABVoted 1 ⟨1, "Q", ["A", "B"], true⟩
    (by decide)).2 (by decide)]
  decide

/-- Claim C9: at the capacity step of the activity-creation chain, an invalid
submission (non-integer text or a non-positive integer) re-prompts: the
session keeps its state and all accumulated fields and no activity row is
created; a valid submission ("-" for the default capacity, or a positive
integer) creates the activity from the accumulated name, description and
datetime plus the parsed capacity, and destroys the session.  Only positive
capacities (or the "-" default 50) pass validation; "abc" and "0" are
rejected. -/
theorem C9_capacity_step (sess : Session) (text : String) (db : DB)
    (n d dt : String)
    (hstate : sess.state = AdminState.waitingCapacity)
    (hn : sess.data.activity_name = some n)
    (hd : sess.data.activity_description = some d)
    (hdt : sess.data.activity_datetime = some dt) :
    (parseCapacity text = none →
      admin_submit true sess text db = SubmitResult.next sess db)
    ∧ (∀ c, parseCapacity text = some c →
      admin_submit true sess text db
        = SubmitResult.committed (add_activity db n d dt c).2)
    ∧ (∀ s c, parseCapacity s = some c → 0 < c)
    ∧ parseCapacity "abc" = none
    ∧ parseCapacity "0" = none
    ∧ parseCapacity "-" = some MAX_BOOKING_CAPACITY
    ∧ parseCapacity "3" = some 3 := by
  obtain ⟨st, dn, dd, ddt⟩ := sess
  dsimp at hstate hn hd hdt
  subst hstate
  subst hn
  subst hd
  subst hdt
  refine ⟨?_, ?_, ?_, by decide, by decide, by decide, by decide⟩
  · intro hparse
    simp [admin_submit, hparse]
  · intro c hparse
    simp [admin_submit, hparse]
  · intro s c hc
    unfold parseCapacity at hc
    split at hc
    · injection hc with h
      subst h
      decide
    · cases hp : pyInt? s with
      | none => rw [hp] at hc; cases hc
      | some v =>
        rw [hp] at hc
        dsimp at hc
        split at hc
        · cases hc
        · rename_i hv
          injection hc with h
          omega

/-- Witness for C9 at the concrete session: "abc" re-prompts with session and
store untouched; "-" commits the activity with the default capacity 50 and
ends the session. -/
theorem C9_witness :
    admin_submit true sessCap "abc" dbCap2 = SubmitResult.next sessCap dbCap2
    ∧ admin_submit true sessCap "-" dbCap2
      = SubmitResult.committed
          (add_activity dbCap2 "Team Lab" "Hands-on session" "15 Nov 14:00" 50).2 :=
  ⟨(C9_capacity_step sessCap "abc" dbCap2 "Team Lab" "Hands-on session"
      "15 Nov 14:00" rfl rfl rfl rfl).1 (by decide),
   (C9_capacity_step sessCap "-" dbCap2 "Team Lab" "Hands-on session"
      "15 Nov 14:00" rfl rfl rfl rfl).2.1 50 (by decide)⟩

/-- Booking attempt by an actor who already holds the booking: the store
method returns False without writing (capacity branch or IntegrityError
branch, depending on fullness). -/
theorem create_booking_booked (db : DB) (u a : Int)
    (h : is_user_booked db u a = true) :
    create_booking db u a = (false, db) := by
  unfold create_booking
  cases hact : get_activity db a
  · rfl
  · dsimp
    split
    · rfl
    · rfl

/-- Counterexample to claim C3 as stated: booking a non-existent activity and
booking a full activity produce the identical user-visible outcome category
("all slots taken"); the absent-activity case is not reported by any distinct
NotFound category, so NotFound and CapacityFull are merged. -/
theorem C3_counterexample :
    (book_activity dbFull1 1 99).1 = BookOutcome.slotsFull
    ∧ get_activity dbFull1 99 = none
    ∧ (book_activity dbFull1 1 1).1 = BookOutcome.slotsFull
    ∧ get_activity dbFull1 1 = some ⟨1, "Workshop", "Intro", "15 Nov 14:00", 1, true⟩
    ∧ get_booking_count dbFull1 1 = 1 := by
  decide

/-- Claim C3 amended: the store's create_booking returns only a boolean; the
handler book_activity derives exactly three stable user-visible outcome
categories — Booked on a successful insert, AlreadyBooked on a failed call by
an actor already holding the booking, and the "slots full" category for every
other failure, which therefore covers both the at-capacity case and the
missing-activity case (no distinct NotFound outcome exists). -/
theorem C3_three_outcome_categories (db : DB) (u a : Int) :
    (is_user_booked db u a = true →
      book_activity db u a = (BookOutcome.alreadyBooked, db))
    ∧ (get_activity db a = none → is_user_booked db u a = false →
      book_activity db u a = (BookOutcome.slotsFull, db))
    ∧ (∀ act, get_activity db a = some act →
        (get_booking_count db a : Int) ≥ act.max_capacity →
        is_user_booked db u a = false →
        book_activity db u a = (BookOutcome.slotsFull, db))
    ∧ (∀ act, get_activity db a = some act →
        (get_booking_count db a : Int) < act.max_capacity →
        is_user_booked db u a = false →
        book_activity db u a = (BookOutcome.booked,
          { db with bookings := db.bookings ++ [⟨u, a⟩] })) := by
  refine ⟨?_, ?_, ?_, ?_⟩
  · intro h
    have hc := create_booking_booked db u a h
    unfold book_activity
    rw [hc]
    simp [h]
  · intro hact hnb
    have hc : create_booking db u a = (false, db) := by
      unfold create_booking
      rw [hact]
    unfold book_activity
    rw [hc]
    simp [hnb]
  · intro act hact hge hnb
    have hc : create_booking db u a = (false, db) := by
      unfold create_booking
      rw [hact]
      dsimp
      rw [if_pos hge]
    unfold book_activity
    rw [hc]
    simp [hnb]
  · intro act hact hlt hnb
    have hc := create_booking_success db u a act hact hlt hnb
    unfold book_activity
    rw [hc]
    simp

/-- Witness for C3's amended theorem: on the full activity the already-booked
actor 2 is answered AlreadyBooked, and actor 3 with spare capacity on the
fresh activity is answered Booked. -/
theorem C3_witness :
    book_activity dbFull1 2 1 = (BookOutcome.alreadyBooked, dbFull1)
    ∧ book_activity dbCap2 3 1
      = (BookOutcome.booked, { dbCap2 with bookings := [⟨3, 1⟩] }) :=
  ⟨(C3_three_outcome_categories dbFull1 2 1).1 (by decide),
   (C3_three_outcome_categories dbCap2 3 1).2.2.2
     ⟨1, "Workshop", "Intro", "15 Nov 14:00", 2, true⟩
     (by decide) (by decide) (by decide)⟩

/-- Per-operation activities frame. -/
theorem applyOp_activities (db : DB) (op : Op) :
    (applyOp db op).activities = db.activities := by
  cases op with
  | book u a => exact (create_booking_frame db u a).2.1
  | cancel u a => exact (cancel_booking_frame db u a).2.1

/-- create_booking either leaves the state untouched or — only with an
existing activity, spare capacity and no prior booking by the actor —
appends exactly one row. -/
theorem create_booking_cases (db : DB) (u a : Int) :
    (create_booking db u a).2 = db
    ∨ ((∃ act, get_activity db a = some act
          ∧ (get_booking_count db a : Int) < act.max_capacity)
       ∧ is_user_booked db u a = false
       ∧ (create_booking db u a).2
           = { db with bookings := db.bookings ++ [⟨u, a⟩] }) := by
  unfold create_booking
  cases hact : get_activity db a
  · left
    rfl
  · dsimp
    split
    · left
      rfl
    · split
      · left
        rfl
      · rename_i hge hnb
        right
        refine ⟨⟨_, rfl, by omega⟩, by simpa using hnb, rfl⟩

/-- Cancelling can only lower a booking count. -/
theorem get_booking_count_cancel_le (db : DB) (u a x : Int) :
    get_booking_count (cancel_booking db u a).2 x ≤ get_booking_count db x := by
  unfold cancel_booking get_booking_count
  dsimp
  exact List.Sublist.length_le (List.Sublist.filter _ (List.filter_sublist _))

/-- One book or cancel call preserves "count of x stays within the ceiling
of its activity row". -/
theorem count_le_applyOp (db : DB) (op : Op) (x : Int) (act : ActivityRow)
    (hact : get_activity db x = some act)
    (hle : (get_booking_count db x : Int) ≤ act.max_capacity) :
    (get_booking_count (applyOp db op) x : Int) ≤ act.max_capacity := by
  cases op with
  | cancel u a =>
    have h2 := get_booking_count_cancel_le db u a x
    show (get_booking_count (cancel_booking db u a).2 x : Int) ≤ act.max_capacity
    omega
  | book u a =>
    show (get_booking_count (create_booking db u a).2 x : Int) ≤ act.max_capacity
    rcases create_booking_cases db u a with hsame | ⟨⟨act2, hact2, hlt⟩, hnb, happ⟩
    · rw [hsame]
      exact hle
    · by_cases heq : a = x
      · subst heq
        rw [hact] at hact2
        injection hact2 with h2
        subst h2
        rw [happ, get_booking_count_append]
        simp
        omega
      · rw [happ, get_booking_count_append, if_neg heq]
        simpa using hle

/-- A whole book/cancel sequence preserves the ceiling bound. -/
theorem applyOps_count_le (ops : List Op) (db : DB) (x : Int)
    (act : ActivityRow)
    (hact : get_activity db x = some act)
    (hle : (get_booking_count db x : Int) ≤ act.max_capacity) :
    (get_booking_count (applyOps db ops) x : Int) ≤ act.max_capacity := by
  induction ops generalizing db with
  | nil => exact hle
  | cons op rest ih =>
    have hact2 : get_activity (applyOp db op) x = some act := by
      unfold get_activity at hact ⊢
      rw [applyOp_activities]
      exact hact
    exact ih (applyOp db op) hact2 (count_le_applyOp db op x act hact hle)

/-- At or over capacity, create_booking refuses and writes nothing. -/
theorem create_booking_at_capacity (db : DB) (u a : Int) (act : ActivityRow)
    (hact : get_activity db a = some act)
    (hge : (get_booking_count db a : Int) ≥ act.max_capacity) :
    create_booking db u a = (false, db) := by
  unfold create_booking
  rw [hact]
  dsimp
  rw [if_pos hge]

/-- Claim C1: for an activity whose booking count respects its capacity
ceiling, no finite sequence of create_booking / cancel_booking calls by any
actors can push the count above the ceiling; and any create_booking call made
while the count is at or above the ceiling returns False and inserts
nothing. -/
theorem C1_capacity_invariant (db : DB) (ops : List Op) (a u : Int)
    (act : ActivityRow)
    (hact : get_activity db a = some act)
    (hinv : (get_booking_count db a : Int) ≤ act.max_capacity) :
    ((get_booking_count (applyOps db ops) a : Int) ≤ act.max_capacity)
    ∧ ((get_booking_count db a : Int) ≥ act.max_capacity →
        create_booking db u a = (false, db)) :=
  ⟨applyOps_count_le ops db a act hact hinv,
   fun hge => create_booking_at_capacity db u a act hact hge⟩

/-- Witness for C1: on the capacity-2 activity, four racing book calls leave
the count at most 2; on the full capacity-1 activity a further book call
returns False and writes nothing. -/
theorem C1_witness :
    ((get_booking_count
        (applyOps dbCap2 [Op.book 1 1, Op.book 2 1, Op.book 3 1, Op.book 4 1])
        1 : Int)
      ≤ (2 : Int))
    ∧ create_booking dbFull1 9 1 = (false, dbFull1) :=
  ⟨(C1_capacity_invariant dbCap2 [Op.book 1 1, Op.book 2 1, Op.book 3 1, Op.book 4 1]
      1 9 ⟨1, "Workshop", "Intro", "15 Nov 14:00", 2, true⟩ (by decide) (by decide)).1,
   (C1_capacity_invariant dbFull1 [] 1 9 ⟨1, "Workshop", "Intro", "15 Nov 14:00", 1, true⟩
      (by decide) (by decide)).2 (by decide)⟩

/-- One book or cancel call preserves the per-pair uniqueness of the
bookings table. -/
theorem pairUnique_applyOp (db : DB) (op : Op)
    (h : bookingsPairUnique db.bookings) :
    bookingsPairUnique (applyOp db op).bookings := by
  cases op with
  | book u a =>
    show bookingsPairUnique (create_booking db u a).2.bookings
    rcases create_booking_cases db u a with hsame | ⟨_, hnb, happ⟩
    · rw [hsame]
      exact h
    · rw [happ]
      unfold bookingsPairUnique at h ⊢
      dsimp
      rw [List.pairwise_append]
      refine ⟨h, List.pairwise_singleton _ _, ?_⟩
      intro b1 hb1 b2 hb2
      simp at hb2
      subst hb2
      have hall := (is_user_booked_false_iff db u a).mp hnb
      exact hall b1 hb1
  | cancel u a =>
    show bookingsPairUnique (cancel_booking db u a).2.bookings
    unfold bookingsPairUnique at h ⊢
    unfold cancel_booking
    dsimp
    exact List.Pairwise.sublist (List.filter_sublist _) h

/-- Claim C2: for any (actor, activity) pair that is currently booked — in
particular right after a first successful book — a further book call fails
and the handler answers AlreadyBooked with the store unchanged, so no
duplicate row is created; and per-pair uniqueness of the bookings table is
preserved by every finite sequence of book and cancel calls. -/
theorem C2_no_duplicate_booking (db : DB) (u a : Int) (ops : List Op) :
    (is_user_booked db u a = true →
      book_activity db u a = (BookOutcome.alreadyBooked, db))
    ∧ (bookingsPairUnique db.bookings →
        bookingsPairUnique (applyOps db ops).bookings) := by
  constructor
  · intro h
    have hc := create_booking_booked db u a h
    unfold book_activity
    rw [hc]
    simp [h]
  · intro h
    induction ops generalizing db with
    | nil => exact h
    | cons op rest ih => exact ih (applyOp db op) (pairUnique_applyOp db op h)

/-- Witness for C2: actor 2 already booked on the full activity is answered
AlreadyBooked with the store unchanged; a book-book-cancel sequence from that
state keeps the table pair-unique. -/
theorem C2_witness :
    book_activity dbFull1 2 1 = (BookOutcome.alreadyBooked, dbFull1)
    ∧ bookingsPairUnique
        (applyOps dbFull1 [Op.book 2 1, Op.book 3 1, Op.cancel 2 1]).bookings :=
  ⟨(C2_no_duplicate_booking dbFull1 2 1 []).1 (by decide),
   (C2_no_duplicate_booking dbFull1 2 1 [Op.book 2 1, Op.book 3 1, Op.cancel 2 1]).2
     (by unfold bookingsPairUnique; decide)⟩

/-- With pairwise-distinct user ids (the users PRIMARY KEY), at most one
users row matches a given id. -/
theorem users_filter_length_le_one (l : List UserRow) (x : Int)
    (h : (l.map (fun u => u.user_id)).Nodup) :
    (l.filter (fun u => u.user_id = x)).length ≤ 1 := by
  induction l with
  | nil => simp
  | cons u l ih =>
    simp at h
    by_cases hx : u.user_id = x
    · have hempty : l.filter (fun v => v.user_id = x) = [] := by
        apply List.filter_eq_nil_iff.mpr
        intro v hv
        simp
        intro hvx
        exact h.1 v hv (by rw [hvx, hx])
      simp [List.filter_cons, hx, hempty]
    · simp [List.filter_cons, hx]
      exact ih h.2

/-- A list of naturals bounded by one sums below its length. -/
theorem sum_le_length_of_le_one (l : List Nat) (h : ∀ x ∈ l, x ≤ 1) :
    l.sum ≤ l.length := by
  induction l with
  | nil => simp
  | cons a l ih =>
    simp at h ⊢
    have := ih h.2
    have := h.1
    omega

/-- A list of naturals bounded by one sums to its length exactly when every
entry is one. -/
theorem sum_eq_length_iff_all_one (l : List Nat) (h : ∀ x ∈ l, x ≤ 1) :
    l.sum = l.length ↔ ∀ x ∈ l, x = 1 := by
  induction l with
  | nil => simp
  | cons a l ih =>
    simp at h
    have hsum := sum_le_length_of_le_one l h.2
    have ha := h.1
    constructor
    · intro he
      simp at he
      have h1 : a = 1 := by omega
      have h2 : l.sum = l.length := by omega
      intro x hx
      simp at hx
      rcases hx with hx | hx
      · rw [hx, h1]
      · exact (ih h.2).mp h2 x hx
    · intro hall
      have h1 : a = 1 := hall a (by simp)
      have h2 : l.sum = l.length :=
        (ih h.2).mpr (fun x hx => hall x (by simp [hx]))
      simp [h1, h2]
      omega

/-- Length of the inner join as a sum of per-booking match counts. -/
theorem get_activity_bookings_length (db : DB) (aid : Int) :
    (get_activity_bookings db aid).length
      = ((db.bookings.filter (fun b => b.activity_id = aid)).map
          (fun b => (db.users.filter (fun u => u.user_id = b.user_id)).length)).sum := by
  unfold get_activity_bookings
  rw [List.length_flatMap]
  congr 1
  apply List.map_congr_left
  intro b hb
  simp

/-- Claim C10: with the users-table primary key (pairwise-distinct user
ids), the per-activity listing get_activity_bookings — an inner join against
users, feeding the admin view and the CSV export — has the same length as
get_booking_count exactly when every booking of the activity has a users row;
a booking whose actor has no users row is among the rows counted by
get_booking_count yet absent from the join listing (and hence from the
export, whose rows are exactly the listing's); the export always has one row
per listing entry. -/
theorem C10_listing_vs_count (db : DB) (aid : Int)
    (hnodup : (db.users.map (fun u => u.user_id)).Nodup) :
    ((get_activity_bookings db aid).length = get_booking_count db aid ↔
      ∀ b ∈ db.bookings, b.activity_id = aid →
        ∃ u ∈ db.users, u.user_id = b.user_id)
    ∧ (∀ b ∈ db.bookings, b.activity_id = aid →
        (∀ u ∈ db.users, u.user_id ≠ b.user_id) →
        b ∈ db.bookings.filter (fun x => x.activity_id = aid)
        ∧ b ∉ (get_activity_bookings db aid).map (fun p => p.1))
    ∧ (export_bookings_rows db aid).length
        = (get_activity_bookings db aid).length := by
  refine ⟨?_, ?_, by simp [export_bookings_rows]⟩
  · rw [get_activity_bookings_length]
    unfold get_booking_count
    have hbound : ∀ x ∈ (db.bookings.filter (fun b => b.activity_id = aid)).map
        (fun b => (db.users.filter (fun u => u.user_id = b.user_id)).length),
        x ≤ 1 := by
      intro x hx
      rw [List.mem_map] at hx
      obtain ⟨b, hb, hxe⟩ := hx
      rw [← hxe]
      exact users_filter_length_le_one db.users b.user_id hnodup
    have hlen : (db.bookings.filter (fun b => b.activity_id = aid)).length
        = ((db.bookings.filter (fun b => b.activity_id = aid)).map
            (fun b => (db.users.filter (fun u => u.user_id = b.user_id)).length)).length := by
      rw [List.length_map]
    rw [hlen, sum_eq_length_iff_all_one _ hbound]
    constructor
    · intro hall b hb haid
      have hbf : b ∈ db.bookings.filter (fun x => x.activity_id = aid) :=
        List.mem_filter.mpr ⟨hb, by simp [haid]⟩
      have h1 := hall _ (List.mem_map_of_mem _ hbf)
      have hpos : 0 < (db.users.filter (fun u => u.user_id = b.user_id)).length := by
        omega
      obtain ⟨u, hu⟩ := List.exists_mem_of_length_pos hpos
      obtain ⟨hu1, hu2⟩ := List.mem_filter.mp hu
      exact ⟨u, hu1, by simpa using hu2⟩
    · intro hex x hx
      rw [List.mem_map] at hx
      obtain ⟨b, hb, hxe⟩ := hx
      obtain ⟨hbb, haid⟩ := List.mem_filter.mp hb
      obtain ⟨u, hu, huid⟩ := hex b hbb (by simpa using haid)
      have hmem : u ∈ db.users.filter (fun v => v.user_id = b.user_id) :=
        List.mem_filter.mpr ⟨hu, by simp [huid]⟩
      have hpos : 0 < (db.users.filter (fun v => v.user_id = b.user_id)).length :=
        List.length_pos.mpr (List.ne_nil_of_mem hmem)
      have hle := users_filter_length_le_one db.users b.user_id hnodup
      omega
  · intro b hb haid hnouser
    refine ⟨List.mem_filter.mpr ⟨hb, by simp [haid]⟩, ?_⟩
    intro hmem
    rw [List.mem_map] at hmem
    obtain ⟨p, hp, hp1⟩ := hmem
    unfold get_activity_bookings at hp
    rw [List.mem_flatMap] at hp
    obtain ⟨b2, hb2, hpin⟩ := hp
    rw [List.mem_map] at hpin
    obtain ⟨u, hu, hue⟩ := hpin
    obtain ⟨hu1, hu2⟩ := List.mem_filter.mp hu
    have hb2b : b2 = b := by
      rw [← hue] at hp1
      exact hp1
    apply hnouser u hu1
    have : u.user_id = b2.user_id := by simpa using hu2
    rw [this, hb2b]

/-- Witness for C10 on the concrete state: actor 8's booking is among the
rows counted for activity 1 but missing from the joined listing. -/
theorem C10_witness :
    (⟨8, 1⟩ : BookingRow) ∈ dbJoin.bookings.filter (fun x => x.activity_id = 1)
    ∧ (⟨8, 1⟩ : BookingRow)
        ∉ (get_activity_bookings dbJoin 1).map (fun p => p.1) :=
  (C10_listing_vs_count dbJoin 1 (by decide)).2.1 ⟨8, 1⟩ (by decide) (by decide)
    (by decide)
